import Mathlib

/-!
Shallow embedding of `src/lib.py` (libdiscord-ipy-migrate).

Python strings are modelled as Lean `String` (sequences of code points);
platform objects (messages, channels, webhooks, stickers, polls) are
structures carrying exactly the fields the library reads.  Remote calls are
modelled through an explicit `World` state: an oracle `outcomes : Nat →
SendOutcome` decides the result of each successive `webhook.send`, and the
`World` also logs every send call and every `migrate_message` invocation so
that theorems can talk about what was sent.  Python exceptions are modelled
with `Except PyExn`; a bare Python `return` versus `return False, None`
versus the documented triple is kept apart by the `MigrateResult` type,
and tuple unpacking of a non-triple is the corresponding Python error.
-/

/-- Opaque embed payload (forwarded verbatim by the library). -/
abbrev Embed := Nat

/-- Opaque reaction payload (only its presence matters). -/
abbrev Reaction := Nat

/-- Message types consulted by the reply-quote step of `migrate_message`. -/
inductive MessageType
  | DEFAULT
  | REPLY
  | THREAD_STARTER_MESSAGE
  | OTHER
deriving DecidableEq, Repr

/-- Emoji as it appears in a `PollMedia` dict: a name, and an id only for
custom emojis. -/
structure Emoji where
  name : String
  id : Option Nat
deriving DecidableEq, Repr

/-- Poll media: optional emoji and optional text (absent key = `none`). -/
structure PollMedia where
  emoji : Option Emoji
  text : Option String
deriving DecidableEq, Repr

/-- One poll answer (the library only reads its `poll_media`). -/
structure PollAnswer where
  poll_media : PollMedia
deriving DecidableEq, Repr

/-- A poll: question, answers, and — when results exist — the vote counts
(`results.answer_counts`, in answer order).  `results = none` models a falsy
`poll.results`. -/
structure Poll where
  question : PollMedia
  answers : List PollAnswer
  results : Option (List Nat)
deriving DecidableEq, Repr

/-- The fields of a referenced (replied-to) message that
`migrate_message` reads. -/
structure ReplyInfo where
  type : MessageType
  poll : Option Poll
  content : String
  author_display_name : String
deriving DecidableEq, Repr

/-- A sticker item attached to a message (id and name). -/
structure StickerItem where
  id : Nat
  name : String
deriving DecidableEq, Repr

/-- A guild custom sticker (id, name and asset url). -/
structure Sticker where
  id : Nat
  name : String
  url : String
deriving DecidableEq, Repr

/-- A source message, with exactly the attributes `lib.py` consumes.
Attachments are modelled by their urls, the author by display name and
avatar url, and `channelName` is `orig_msg.channel.name`. -/
structure Msg where
  content : String
  embeds : List Embed
  attachments : List String
  author_display_name : String
  author_avatar_url : String
  channelName : String
  referenced_message : Option ReplyInfo
  sticker_items : List StickerItem
  poll : Option Poll
  reactions : List Reaction
  id : Nat
  jump_url : String
deriving DecidableEq, Repr

/-- Destination channel, discriminated by kind as the `isinstance` checks
in the source do. -/
inductive DestChan
  | guildText (id : Nat)
  | guildForum (id : Nat)
  | otherChan (id : Nat)
deriving DecidableEq, Repr

/-- The value found in `HTTPException.code`: an int, `None`, or a
non-numeric string on which Python `int()` raises `ValueError`. -/
inductive CodeVal
  | noneCode
  | intCode (n : Int)
  | badStr
deriving DecidableEq, Repr

/-- Python exceptions that can escape the modelled functions. -/
inductive PyExn
  | typeError
  | valueError
  | attributeError
  | httpExn (code : CodeVal)
deriving DecidableEq, Repr

/-- The message object returned by a successful `webhook.send(wait=True)`:
its id, and the id / thread-ness of the channel it landed in. -/
structure SentMsg where
  id : Nat
  chanId : Int
  chanIsThread : Bool
deriving DecidableEq, Repr

/-- Outcome of one `webhook.send` attempt, decided by the environment. -/
inductive SendOutcome
  | ok (m : SentMsg)
  | httpErr (code : CodeVal)
deriving DecidableEq, Repr

/-- Record of one `webhook.send` call as issued by the library.
`fromFallback` marks the call site: `true` for the substitute-notice send
in `migrate_message`'s `except` handler, `false` otherwise. -/
structure SendCall where
  content : String
  embeds : List Embed
  username : Option String
  avatar_url : Option String
  reply_to : Option SentMsg
  thread : Option Int
  thread_name : Option String
  fromFallback : Bool
deriving DecidableEq, Repr

/-- A webhook as listed/created on a destination channel. -/
structure Webhook where
  id : Nat
  name : String
deriving DecidableEq, Repr

/-- The remote-platform state threaded through a migration run: the
destination channel's webhooks, the guild's custom stickers, the send
oracle with its cursor, and observation logs (sends issued, webhook
fetches, `migrate_message` invocations), plus a fresh-id counter for
threads created from messages. -/
structure World where
  webhooks : List Webhook
  next_webhook_id : Nat
  guildStickers : List Sticker
  outcomes : Nat → SendOutcome
  sendCount : Nat
  sends : List SendCall
  whFetchCount : Nat
  next_thread_id : Int
  migrations : List Msg

/-- `webhook_name` constant from the source. -/
def webhook_name : String := "DBF"

/-- `__MESSAGE_LEN_LIMIT` constant from the source. -/
def MESSAGE_LEN_LIMIT : Nat := 2000

/-! ## Content splitting (line 211 of the source)

`(msg_text[0 + i : LIMIT + i] for i in range(0, len(msg_text), LIMIT))`
slices the text into consecutive fixed-width chunks.  `chunksOfAux` is the
fuel-driven structural version (fuel bounds the recursion depth; it is
instantiated with the list length, which suffices for any positive limit).
-/

def chunksOfAux (n : Nat) : Nat → List Char → List (List Char)
  | _, [] => []
  | 0, _ :: _ => []
  | fuel + 1, c :: cs => ((c :: cs).take n) :: chunksOfAux n fuel ((c :: cs).drop n)

def chunksOf (n : Nat) (l : List Char) : List (List Char) :=
  chunksOfAux n l.length l

/-- The chunk list actually used by `migrate_message`. -/
def splitLimit (s : String) : List String :=
  (chunksOf MESSAGE_LEN_LIMIT s.toList).map (fun cs => String.mk cs)

lemma chunksOfAux_spec :
    ∀ (fuel : Nat) (l : List Char), l.length ≤ fuel →
      (chunksOfAux 2000 fuel l).flatten = l
      ∧ (chunksOfAux 2000 fuel l).length = (l.length + 1999) / 2000
      ∧ ∀ c ∈ chunksOfAux 2000 fuel l, c.length ≤ 2000 := by
  intro fuel
  induction fuel with
  | zero =>
    intro l h
    have hl : l = [] := List.eq_nil_of_length_eq_zero (Nat.le_zero.mp h)
    subst hl
    refine ⟨rfl, by decide, ?_⟩
    intro c hc
    simp [chunksOfAux] at hc
  | succ fuel ih =>
    intro l h
    match l with
    | [] =>
      refine ⟨by simp [chunksOfAux], by simp [chunksOfAux], ?_⟩
      intro c hc
      simp [chunksOfAux] at hc
    | c :: cs =>
      have hdl : ((c :: cs).drop 2000).length ≤ fuel := by
        simp only [List.length_drop, List.length_cons] at *
        omega
      obtain ⟨ihj, ihl, ihb⟩ := ih _ hdl
      refine ⟨?_, ?_, ?_⟩
      · show ((c :: cs).take 2000 :: chunksOfAux 2000 fuel ((c :: cs).drop 2000)).flatten = c :: cs
        rw [List.flatten_cons, ihj]
        exact List.take_append_drop 2000 (c :: cs)
      · show ((c :: cs).take 2000 :: chunksOfAux 2000 fuel ((c :: cs).drop 2000)).length
            = ((c :: cs).length + 1999) / 2000
        simp only [List.length_cons, ihl, List.length_drop]
        omega
      · intro x hx
        rcases List.mem_cons.mp hx with hx | hx
        · subst hx
          simp only [List.length_take]
          omega
        · exact ihb x hx

/-- C2: for every body (sequence of code points) of positive length, the
splitter in `migrate_message` produces exactly `ceil(L / 2000)` chunks, each
of length at most 2000, whose in-order concatenation is the original body;
`splitLimit` (the `String` wrapper used by `migrate_message`) is that
splitter. -/
theorem c2_chunking_round_trip (l : List Char) (_h : 0 < l.length) :
    (chunksOf MESSAGE_LEN_LIMIT l).length = (l.length + 1999) / 2000
    ∧ (∀ c ∈ chunksOf MESSAGE_LEN_LIMIT l, c.length ≤ 2000)
    ∧ (chunksOf MESSAGE_LEN_LIMIT l).flatten = l
    ∧ splitLimit (String.mk l) = (chunksOf MESSAGE_LEN_LIMIT l).map (fun cs => String.mk cs) := by
  obtain ⟨hj, hl, hb⟩ := chunksOfAux_spec l.length l (Nat.le_refl _)
  exact ⟨hl, hb, hj, rfl⟩

/-- Witness for C2 at the two-character body `hi`. -/
theorem c2_witness :
    0 < (['h', 'i'] : List Char).length
    ∧ ((chunksOf MESSAGE_LEN_LIMIT ['h', 'i']).length = ((['h', 'i'] : List Char).length + 1999) / 2000
      ∧ (∀ c ∈ chunksOf MESSAGE_LEN_LIMIT ['h', 'i'], c.length ≤ 2000)
      ∧ (chunksOf MESSAGE_LEN_LIMIT ['h', 'i']).flatten = ['h', 'i']
      ∧ splitLimit (String.mk ['h', 'i'])
        = (chunksOf MESSAGE_LEN_LIMIT ['h', 'i']).map (fun cs => String.mk cs)) :=
  ⟨by decide, c2_chunking_round_trip ['h', 'i'] (by decide)⟩

/-! ## History Reader (`flatten_history_iterator`, lines 34-85)

The remote cursor is modelled as the finite list of events its successive
`__anext__` calls produce: a message, a `StopAsyncIteration`, an
`HTTPException` carrying a `CodeVal`, or any other exception.  An exhausted
event list behaves like the iterator ending. -/

inductive HistEvent (α : Type)
  | msg (m : α)
  | stopIter
  | httpExn (code : CodeVal)
  | otherExn
deriving DecidableEq, Repr

/-- The accumulation loop of `flatten_history_iterator`.  Mirrors the
`while True` / `try` / `except` ladder: `StopAsyncIteration` breaks; an
`HTTPException` code is passed to `int()` (a non-numeric string raises
`ValueError`, caught and skipped; `None` raises `TypeError`, which is NOT
caught and escapes) and matched: 50083/10003/50001/50013 break,
10008/50021/160005 and the default case skip; any other exception skips. -/
def flattenGo {α : Type} : List (HistEvent α) → List α → Except PyExn (List α)
  | [], acc => .ok acc
  | e :: rest, acc =>
    match e with
    | .msg m => flattenGo rest (acc ++ [m])
    | .stopIter => .ok acc
    | .httpExn code =>
      match code with
      | .intCode n =>
        if n = 50083 then .ok acc
        else if n = 10003 then .ok acc
        else if n = 10008 then flattenGo rest acc
        else if n = 50001 then .ok acc
        else if n = 50013 then .ok acc
        else if n = 50021 then flattenGo rest acc
        else if n = 160005 then flattenGo rest acc
        else flattenGo rest acc
      | .badStr => flattenGo rest acc
      | .noneCode => .error .typeError
    | .otherExn => flattenGo rest acc

/-- `flatten_history_iterator(history, reverse)`: run the loop, then
optionally reverse the accumulated list. -/
def flatten_history_iterator {α : Type} (history : List (HistEvent α))
    (reverse : Bool) : Except PyExn (List α) :=
  match flattenGo history [] with
  | .ok l => .ok (if reverse then l.reverse else l)
  | .error e => .error e

/-- C4: `flatten_history_iterator` (whose loop is `flattenGo`, started on
the empty accumulator) stops and returns the accumulated messages — a
normal result, not a failure — on a transport error coded 50083, 10003,
50001 or 50013, for every continuation of the event sequence and every
accumulated prefix; on any other int code (10008, 50021, 160005, or
unrecognized), on a code `int()` rejects, and on a non-transport error it
skips that entry and continues; a fetched message is appended and the
iteration continues. -/
theorem c4_flatten_error_policy :
    (∀ (hist : List (HistEvent Msg)), flatten_history_iterator hist false = flattenGo hist [])
    ∧ (∀ (acc : List Msg) (rest : List (HistEvent Msg)) (c : Int),
        (c = 50083 ∨ c = 10003 ∨ c = 50001 ∨ c = 50013) →
        flattenGo (HistEvent.httpExn (CodeVal.intCode c) :: rest) acc = .ok acc)
    ∧ (∀ (acc : List Msg) (rest : List (HistEvent Msg)) (c : Int),
        ¬(c = 50083 ∨ c = 10003 ∨ c = 50001 ∨ c = 50013) →
        flattenGo (HistEvent.httpExn (CodeVal.intCode c) :: rest) acc = flattenGo rest acc)
    ∧ (∀ (acc : List Msg) (rest : List (HistEvent Msg)),
        flattenGo (HistEvent.httpExn CodeVal.badStr :: rest) acc = flattenGo rest acc)
    ∧ (∀ (acc : List Msg) (rest : List (HistEvent Msg)),
        flattenGo (HistEvent.otherExn :: rest) acc = flattenGo rest acc)
    ∧ (∀ (acc : List Msg) (rest : List (HistEvent Msg)) (m : Msg),
        flattenGo (HistEvent.msg m :: rest) acc = flattenGo rest (acc ++ [m])) := by
  refine ⟨?_, ?_, ?_, ?_, ?_, ?_⟩
  · intro hist
    rcases h : flattenGo hist [] with l | e <;> simp [flatten_history_iterator, h]
  · intro acc rest c hc
    rcases hc with rfl | rfl | rfl | rfl <;> rfl
  · intro acc rest c hc
    push_neg at hc
    obtain ⟨h1, h2, h3, h4⟩ := hc
    show (if c = 50083 then Except.ok acc
      else if c = 10003 then Except.ok acc
      else if c = 10008 then flattenGo rest acc
      else if c = 50001 then Except.ok acc
      else if c = 50013 then Except.ok acc
      else if c = 50021 then flattenGo rest acc
      else if c = 160005 then flattenGo rest acc
      else flattenGo rest acc) = flattenGo rest acc
    split_ifs <;> simp_all
  · intro acc rest
    rfl
  · intro acc rest
    rfl
  · intro acc rest m
    rfl

/-- Witness for C4: a denial code (50001) stops with the partial result,
and a skippable code (160005) continues. -/
theorem c4_witness :
    flattenGo (HistEvent.httpExn (CodeVal.intCode 50001)
        :: ([HistEvent.stopIter] : List (HistEvent Msg))) [] = .ok []
    ∧ flattenGo (HistEvent.httpExn (CodeVal.intCode 160005)
        :: ([] : List (HistEvent Msg))) []
      = flattenGo ([] : List (HistEvent Msg)) [] :=
  ⟨c4_flatten_error_policy.2.1 [] [HistEvent.stopIter] 50001 (by decide),
   c4_flatten_error_policy.2.2.1 [] [] 160005 (by decide)⟩

/-! ## Proxy Poster (`fetch_create_webhook`, lines 88-106)

The pure content of resolve-or-create: given the channel's current webhook
list and a fresh id supply, return the webhook together with the updated
list and supply.  `create_webhook` appends the new webhook to the channel's
list. -/

def fetch_create_webhook (webhooks : List Webhook) (next_id : Nat) :
    Webhook × List Webhook × Nat :=
  let available_webhooks := webhooks.filter (fun wh => wh.name == webhook_name)
  match available_webhooks with
  | [] =>
    let webhook : Webhook := { id := next_id, name := webhook_name }
    (webhook, webhooks ++ [webhook], next_id + 1)
  | webhook :: _ => (webhook, webhooks, next_id)

/-- C9: resolve-or-create is idempotent — for every channel state, a second
call returns the same webhook as the first and creates nothing new; and
whenever webhooks with the fixed name already exist, the first of them is
returned and the state is left unchanged (no duplicate creation). -/
theorem c9_webhook_idempotent (webhooks : List Webhook) (next_id : Nat) :
    (fetch_create_webhook (fetch_create_webhook webhooks next_id).2.1
        (fetch_create_webhook webhooks next_id).2.2).1
      = (fetch_create_webhook webhooks next_id).1
    ∧ (fetch_create_webhook (fetch_create_webhook webhooks next_id).2.1
        (fetch_create_webhook webhooks next_id).2.2).2.1
      = (fetch_create_webhook webhooks next_id).2.1
    ∧ ∀ (wh : Webhook) (rest : List Webhook),
        webhooks.filter (fun x => x.name == webhook_name) = wh :: rest →
        fetch_create_webhook webhooks next_id = (wh, webhooks, next_id) := by
  rcases h : webhooks.filter (fun x => x.name == webhook_name) with _ | ⟨wh, rest⟩
  · have h1 : fetch_create_webhook webhooks next_id
        = ({ id := next_id, name := webhook_name },
           webhooks ++ [{ id := next_id, name := webhook_name }], next_id + 1) := by
      simp only [fetch_create_webhook, h]
    have h2 : (webhooks ++ [({ id := next_id, name := webhook_name } : Webhook)]).filter
        (fun x => x.name == webhook_name)
        = [{ id := next_id, name := webhook_name }] := by
      rw [List.filter_append, h]
      simp [webhook_name]
    refine ⟨?_, ?_, ?_⟩
    · rw [h1]
      simp only [fetch_create_webhook, h2]
    · rw [h1]
      simp only [fetch_create_webhook, h2]
    · intro wh rest hwh
      rw [hwh] at h
      exact absurd h (by simp)
  · have h1 : fetch_create_webhook webhooks next_id = (wh, webhooks, next_id) := by
      simp only [fetch_create_webhook, h]
    refine ⟨?_, ?_, ?_⟩
    · rw [h1]
      simp only [fetch_create_webhook, h]
    · rw [h1]
      simp only [fetch_create_webhook, h]
    · intro wh' rest' hwh
      rw [hwh] at h
      injection h with h5 h6
      subst h5
      exact h1

/-- Witness for C9: with two webhooks already named `DBF`, the first is
reused and nothing is created. -/
theorem c9_witness :
    ([⟨7, "DBF"⟩, ⟨8, "DBF"⟩] : List Webhook).filter (fun x => x.name == webhook_name)
      = ⟨7, "DBF"⟩ :: [⟨8, "DBF"⟩]
    ∧ fetch_create_webhook [⟨7, "DBF"⟩, ⟨8, "DBF"⟩] 3 = (⟨7, "DBF"⟩, [⟨7, "DBF"⟩, ⟨8, "DBF"⟩], 3) :=
  ⟨by decide,
   (c9_webhook_idempotent [⟨7, "DBF"⟩, ⟨8, "DBF"⟩] 3).2.2 ⟨7, "DBF"⟩ [⟨8, "DBF"⟩] (by decide)⟩

/-! ## Content Composer (`convert_poll_to_message`, lines 108-140, and the
body-building steps of `migrate_message`, lines 176-200) -/

/-- Python `f"{i:04d}"` for a non-negative count. -/
def pad4 (n : Nat) : String :=
  let s := toString n
  if s.length < 4 then String.mk (List.replicate (4 - s.length) '0') ++ s else s

/-- `poll_media_to_str` inner helper: emoji rendering (custom as
`<:name:id>`, built-in as its raw name) followed by the text. -/
def poll_media_to_str (poll_media : PollMedia) : String :=
  let ret := ""
  let ret :=
    match poll_media.emoji with
    | some e =>
      match e.id with
      | some i => ret ++ "<:" ++ e.name ++ ":" ++ toString i ++ ">"
      | none => ret ++ e.name
    | none => ret
  match poll_media.text with
  | some t => ret ++ " " ++ t
  | none => ret

/-- `convert_poll_to_message`: question, then one line per answer; when
results exist each answer is prefixed by its zero-padded count and the
whole rendering by `(Poll finished) `. -/
def convert_poll_to_message (poll : Poll) : String :=
  let question_str := poll_media_to_str poll.question
  let answers := poll.answers.map (fun pa => poll_media_to_str pa.poll_media)
  let answers :=
    match poll.results with
    | some results => (results.zip answers).map (fun p => pad4 p.1 ++ " - " ++ p.2)
    | none => answers
  let final_str := question_str ++ "\n" ++ String.intercalate ("\n") answers
  match poll.results with
  | some _ => "(Poll finished) " ++ final_str
  | none => final_str

/-- Python `str.splitlines(False)` restricted to `\n` boundaries. -/
def splitlines (s : String) : List String :=
  if s = "" then []
  else
    let parts := s.splitOn ("\n")
    if parts.getLast? = some ("") then parts.dropLast else parts

/-- Reply-quote prefix (`replied_text`, lines 177-184): empty unless the
message references a normal/reply/thread-starter message. -/
def composeReply (orig_msg : Msg) : String :=
  match orig_msg.referenced_message with
  | some reply_to =>
    if reply_to.type = MessageType.DEFAULT ∨ reply_to.type = MessageType.REPLY
        ∨ reply_to.type = MessageType.THREAD_STARTER_MESSAGE then
      let base :=
        match reply_to.poll with
        | some p => convert_poll_to_message p
        | none => reply_to.content
      let msgs_reply_to := (splitlines base).map (fun l => "> " ++ l)
      "> **" ++ reply_to.author_display_name ++ "** said:\n"
        ++ String.intercalate ("\n") msgs_reply_to
    else ""
  | none => ""

/-- Line 185: `msg_text = replied_text + "\n" + msg_text` —
unconditionally. -/
def composeBase (orig_msg : Msg) : String :=
  composeReply orig_msg ++ "\n" ++ orig_msg.content

/-- Lines 187-189: attachment urls prepended, one per line. -/
def composeAttach (orig_msg : Msg) (msg_text : String) : String :=
  if !orig_msg.attachments.isEmpty then
    String.intercalate ("\n") orig_msg.attachments ++ "\n" ++ msg_text
  else msg_text

/-- Lines 191-197: available destination stickers prepended by url; a
`not available` notice naming the missing ones when some are missing. -/
def composeStickers (orig_msg : Msg) (guild_stickers : List Sticker)
    (msg_text : String) : String :=
  if !orig_msg.sticker_items.isEmpty then
    let available_stickers := guild_stickers.filter
      (fun s => orig_msg.sticker_items.any (fun i => s.id == i.id || s.name == i.name))
    let msg_text :=
      if available_stickers.length < orig_msg.sticker_items.length then
        "Sticker "
          ++ String.intercalate (",")
            ((orig_msg.sticker_items.filter
              (fun i => !(available_stickers.any (fun s => i.id == s.id || i.name == s.name)))).map
              (fun i => i.name))
          ++ " not available\n" ++ msg_text
      else msg_text
    available_stickers.foldl (fun t s => s.url ++ "\n" ++ t) msg_text
  else msg_text

/-- Lines 199-200: poll rendering prepended. -/
def composePoll (orig_msg : Msg) (msg_text : String) : String :=
  match orig_msg.poll with
  | some p => convert_poll_to_message p ++ "\n" ++ msg_text
  | none => msg_text

/-- The full `msg_text` as assembled by lines 176-200 (the guild's custom
stickers are fetched from the destination guild, i.e. from the `World`). -/
def composeText (orig_msg : Msg) (guild_stickers : List Sticker) : String :=
  composePoll orig_msg (composeStickers orig_msg guild_stickers (composeAttach orig_msg (composeBase orig_msg)))

/-- Lines 202-207: interpretation of the tri-state `thread_id` into the
`thread` / `thread_name` send parameters. -/
def threadFields (thread_id : Option Int) (channel_name : String) :
    Option Int × Option String :=
  match thread_id with
  | none => (none, none)
  | some t => if t = 0 then (none, some channel_name) else (some t, none)

/-! ## World-effect primitives -/

/-- Record a `migrate_message` invocation (observation log). -/
def logMigration (m : Msg) (w : World) : World :=
  { w with migrations := w.migrations ++ [m] }

/-- `fetch_create_webhook` acting on the channel state held in the
`World`, counting the fetch. -/
def fetch_create_webhook_w (w : World) : Webhook × World :=
  let r := fetch_create_webhook w.webhooks w.next_webhook_id
  (r.1, { w with webhooks := r.2.1, next_webhook_id := r.2.2,
                 whFetchCount := w.whFetchCount + 1 })

/-- One `webhook.send` attempt: the oracle decides the outcome, the call is
logged and the cursor advances. -/
def webhookSendAttempt (call : SendCall) (w : World) : SendOutcome × World :=
  (w.outcomes w.sendCount,
   { w with sendCount := w.sendCount + 1, sends := w.sends ++ [call] })

/-- A `webhook.send` that is not wrapped in `try`: an `HTTPException`
outcome escapes as a raised exception. -/
def webhookSendRaise (call : SendCall) (w : World) : Except PyExn SentMsg × World :=
  match webhookSendAttempt call w with
  | (.ok m, w') => (.ok m, w')
  | (.httpErr c, w') => (.error (.httpExn c), w')

/-- `message.create_thread(name=..., reason=...)`, modelled as always
succeeding with a fresh thread id. -/
def create_thread_from_message (_sent : SentMsg) (_nm : String) (w : World) :
    Int × World :=
  (w.next_thread_id, { w with next_thread_id := w.next_thread_id + 1 })

/-! ## Message Migrator (`migrate_message`, lines 142-274) -/

/-- Line 171's `isinstance(dest_chan, GuildText) or isinstance(dest_chan,
GuildForum)` check. -/
def destTypeOk (dest_chan : DestChan) : Bool :=
  match dest_chan with
  | .guildText _ => true
  | .guildForum _ => true
  | .otherChan _ => false

/-- What `migrate_message` actually returns, keeping Python's three
different return statements apart: the bare `return` (None), the pair
`return False, None` (line 172), and the documented triple of line 274. -/
inductive MigrateResult
  | retNone
  | retPair (ok : Bool) (tid : Option Int)
  | retTriple (ok : Bool) (tid : Option Int) (sent : Option SentMsg)
deriving DecidableEq, Repr

/-- `a, b, c = r` on a `MigrateResult`: unpacking `None` raises
`TypeError`, unpacking the 2-tuple raises `ValueError`. -/
def unpack3 (r : MigrateResult) :
    Except PyExn (Bool × Option Int × Option SentMsg) :=
  match r with
  | .retNone => .error .typeError
  | .retPair _ _ => .error .valueError
  | .retTriple a b c => .ok (a, b, c)

/-- What the `except` handler of the send loop does for each code value
(lines 224-262): the four terminal-denial codes hit a bare `return`; other
recognized codes, unrecognized codes and a `None` code produce a reason and
fall through to the fallback send; `int()` on a non-numeric string raises
`ValueError` (there is no `except ValueError` here, unlike the history
reader). -/
inductive SendErrAction
  | abort
  | fallback (reason : String)
  | raiseValueError
deriving DecidableEq, Repr

def classifySendErr (code : CodeVal) : SendErrAction :=
  match code with
  | .noneCode => .fallback ("of unknown error code")
  | .badStr => .raiseValueError
  | .intCode n =>
    if n = 50083 then .fallback ("This thread is archived")
    else if n = 10003 then .abort
    else if n = 10008 then .abort
    else if n = 50001 then .abort
    else if n = 50006 then .fallback ("Cannot send an empty message")
    else if n = 50013 then .abort
    else if n = 50021 then .fallback ("This thread is archived")
    else if n = 160005 then .fallback ("This thread is locked")
    else .fallback ("Unknown error " ++ toString n)

/-- How the per-chunk send loop of lines 209-273 exits: normally (with the
final `sent_msg` and `output_thread_id`), or through one of the bare
`return` statements. -/
inductive LoopOut
  | completed (sent : Option SentMsg) (output_thread_id : Option Int)
  | aborted
deriving DecidableEq, Repr

/-- The per-chunk send loop.  Every chunk is sent with the same `thread` /
`thread_name` fields; a successful send becomes the `reply_to` of the next
chunk; a send failure is classified, and the fallback notice (when
applicable) is sent outside any `try`, so its own failure raises. -/
def sendChunksGo (orig_msg : Msg) (th : Option Int) (tn : Option String) :
    List String → Option SentMsg → Option Int → World → Except PyExn LoopOut × World
  | [], sent_msg, output_thread_id, w => (.ok (.completed sent_msg output_thread_id), w)
  | text :: rest, sent_msg, output_thread_id, w =>
    let call : SendCall :=
      { content := text, embeds := orig_msg.embeds,
        username := some orig_msg.author_display_name,
        avatar_url := some orig_msg.author_avatar_url,
        reply_to := sent_msg, thread := th, thread_name := tn,
        fromFallback := false }
    match webhookSendAttempt call w with
    | (.ok m, w1) =>
      let otid := if m.chanIsThread then some m.chanId else output_thread_id
      sendChunksGo orig_msg th tn rest (some m) otid w1
    | (.httpErr code, w1) =>
      match classifySendErr code with
      | .abort => (.ok .aborted, w1)
      | .raiseValueError => (.error .valueError, w1)
      | .fallback reason =>
        let fcall : SendCall :=
          { content := "Message " ++ orig_msg.jump_url ++ " " ++ toString orig_msg.id
              ++ " cannot be migrated because " ++ reason,
            embeds := [], username := some orig_msg.author_display_name,
            avatar_url := some orig_msg.author_avatar_url,
            reply_to := none, thread := th, thread_name := tn,
            fromFallback := true }
        match webhookSendAttempt fcall w1 with
        | (.ok m2, w2) =>
          let otid := if m2.chanIsThread then some m2.chanId else output_thread_id
          sendChunksGo orig_msg th tn rest (some m2) otid w2
        | (.httpErr c2, w2) => (.error (.httpExn c2), w2)

/-- Everything `migrate_message` does after the destination-type check:
resolve the webhook, compose the body, interpret `thread_id`, and run the
chunk loop. -/
def migrateLoopRunAux (orig_msg : Msg) (thread_id : Option Int) (w : World) :
    Except PyExn LoopOut × World :=
  let fw := fetch_create_webhook_w w
  let w1 := fw.2
  let msg_text := composeText orig_msg w1.guildStickers
  let tf := threadFields thread_id orig_msg.channelName
  sendChunksGo orig_msg tf.1 tf.2 (splitLimit msg_text) none none w1

/-- `migrate_message(orig_msg, dest_chan, thread_id)`. -/
def migrate_message (orig_msg : Msg) (dest_chan : DestChan)
    (thread_id : Option Int) (w : World) : Except PyExn MigrateResult × World :=
  let w0 := logMigration orig_msg w
  if destTypeOk dest_chan = false then (.ok (.retPair false none), w0)
  else
    match migrateLoopRunAux orig_msg thread_id w0 with
    | (.ok (.completed s t), w') => (.ok (.retTriple true t s), w')
    | (.ok .aborted, w') => (.ok .retNone, w')
    | (.error e, w') => (.error e, w')

/-! Definitional projection facts for the world-manipulating primitives. -/

@[simp] lemma logMigration_sends (m : Msg) (w : World) :
    (logMigration m w).sends = w.sends := rfl

@[simp] lemma logMigration_outcomes (m : Msg) (w : World) :
    (logMigration m w).outcomes = w.outcomes := rfl

@[simp] lemma logMigration_sendCount (m : Msg) (w : World) :
    (logMigration m w).sendCount = w.sendCount := rfl

@[simp] lemma logMigration_guildStickers (m : Msg) (w : World) :
    (logMigration m w).guildStickers = w.guildStickers := rfl

@[simp] lemma logMigration_migrations (m : Msg) (w : World) :
    (logMigration m w).migrations = w.migrations ++ [m] := rfl

@[simp] lemma fetch_create_webhook_w_sends (w : World) :
    (fetch_create_webhook_w w).2.sends = w.sends := rfl

@[simp] lemma fetch_create_webhook_w_outcomes (w : World) :
    (fetch_create_webhook_w w).2.outcomes = w.outcomes := rfl

@[simp] lemma fetch_create_webhook_w_sendCount (w : World) :
    (fetch_create_webhook_w w).2.sendCount = w.sendCount := rfl

@[simp] lemma fetch_create_webhook_w_guildStickers (w : World) :
    (fetch_create_webhook_w w).2.guildStickers = w.guildStickers := rfl

@[simp] lemma fetch_create_webhook_w_migrations (w : World) :
    (fetch_create_webhook_w w).2.migrations = w.migrations := rfl

@[simp] lemma webhookSendAttempt_sends (call : SendCall) (w : World) :
    (webhookSendAttempt call w).2.sends = w.sends ++ [call] := rfl

@[simp] lemma webhookSendAttempt_sendCount (call : SendCall) (w : World) :
    (webhookSendAttempt call w).2.sendCount = w.sendCount + 1 := rfl

@[simp] lemma webhookSendAttempt_outcomes (call : SendCall) (w : World) :
    (webhookSendAttempt call w).2.outcomes = w.outcomes := rfl

@[simp] lemma webhookSendAttempt_migrations (call : SendCall) (w : World) :
    (webhookSendAttempt call w).2.migrations = w.migrations := rfl

@[simp] lemma webhookSendAttempt_fst (call : SendCall) (w : World) :
    (webhookSendAttempt call w).1 = w.outcomes w.sendCount := rfl

@[simp] lemma create_thread_from_message_migrations (sm : SentMsg) (nm : String) (w : World) :
    (create_thread_from_message sm nm w).2.migrations = w.migrations := rfl

@[simp] lemma create_thread_from_message_sends (sm : SentMsg) (nm : String) (w : World) :
    (create_thread_from_message sm nm w).2.sends = w.sends := rfl

/-! ## Thread Migrator (`migrate_thread`, lines 279-336)

A source thread is a `GuildForumPost` or a `GuildPublicThread` that is not
a forum post (the two legs of the `isinstance` checks); each carries its
name, its possibly-deleted originating message (`initial_post` /
`parent_message`), and the events its history iterator produces. -/

inductive OrigThread
  | forumPost (nm : String) (initial_post : Option Msg) (hist : List (HistEvent Msg))
  | publicThread (nm : String) (parent_message : Option Msg) (hist : List (HistEvent Msg))
deriving DecidableEq, Repr

def OrigThread.name : OrigThread → String
  | .forumPost nm _ _ => nm
  | .publicThread nm _ _ => nm

def OrigThread.history : OrigThread → List (HistEvent Msg)
  | .forumPost _ _ h => h
  | .publicThread _ _ h => h

/-- The thread's originating message as determined by lines 290-298
(`initial_post` for forum posts, `parent_message` for plain threads). -/
def rootOf : OrigThread → Option Msg
  | .forumPost _ ip _ => ip
  | .publicThread _ pm _ => pm

/-- Lines 283-284: the accepted (thread kind, destination kind) pairs. -/
def threadPairOk (ot : OrigThread) (dest_chan : DestChan) : Bool :=
  match ot, dest_chan with
  | .forumPost _ _ _, .guildForum _ => true
  | .publicThread _ _ _, .guildText _ => true
  | _, _ => false

/-- `is_empty_message` (lines 276-277): Python truthiness of the tuple
members. -/
def is_empty_message (msg : Msg) : Bool :=
  !(msg.content != "" || !msg.embeds.isEmpty || msg.poll.isSome
    || !msg.reactions.isEmpty || !msg.sticker_items.isEmpty)

/-- The `i == 0` special branch at the top of the replay loop (lines
322-331): for a forum post whose root exists and differs from the first
fetched message, migrate the root now (re-binding `thread_id` from the
unpacked result); for a plain thread whose root exists, migrate the root
with no thread context and turn its sent message into the destination
thread (`None.create_thread` would be an `AttributeError`). -/
def threadLoopStep0 (dest_chan : DestChan) (ot : OrigThread)
    (parent_msg : Option Msg) (i : Nat) (msg : Msg) (thread_id : Option Int)
    (w : World) : Except PyExn (Option Int) × World :=
  if i = 0 then
    match ot, parent_msg with
    | .forumPost _ _ _, some pm =>
      if msg ≠ pm then
        match migrate_message pm dest_chan thread_id w with
        | (.ok r, w1) =>
          match unpack3 r with
          | .ok (_, tid, _) => (.ok tid, w1)
          | .error e => (.error e, w1)
        | (.error e, w1) => (.error e, w1)
      else (.ok thread_id, w)
    | .publicThread _ _ _, some pm =>
      match migrate_message pm dest_chan none w with
      | (.ok r, w1) =>
        match unpack3 r with
        | .ok (_, _, sent_msg) =>
          match sent_msg with
          | some sm =>
            let ct := create_thread_from_message sm ot.name w1
            (.ok (some ct.1), ct.2)
          | none => (.error .attributeError, w1)
        | .error e => (.error e, w1)
      | (.error e, w1) => (.error e, w1)
    | _, none => (.ok thread_id, w)
  else (.ok thread_id, w)

/-- The replay loop of lines 321-336 over the enumerated history: run the
`i == 0` branch, skip empty messages, migrate the rest into the current
thread id (re-bound each iteration from the unpacked result), and break
when a migration reports failure with no thread id. -/
def migrateThreadLoop (dest_chan : DestChan) (ot : OrigThread)
    (parent_msg : Option Msg) :
    List (Nat × Msg) → Option Int → World → Except PyExn Unit × World
  | [], _, w => (.ok (), w)
  | (i, msg) :: rest, thread_id, w =>
    match threadLoopStep0 dest_chan ot parent_msg i msg thread_id w with
    | (.error e, w1) => (.error e, w1)
    | (.ok thread_id1, w1) =>
      if is_empty_message msg then
        migrateThreadLoop dest_chan ot parent_msg rest thread_id1 w1
      else
        match migrate_message msg dest_chan thread_id1 w1 with
        | (.ok r, w2) =>
          match unpack3 r with
          | .ok (ok, tid, _) =>
            if ok = false ∧ tid = none then (.ok (), w2)
            else migrateThreadLoop dest_chan ot parent_msg rest tid w2
          | .error e => (.error e, w2)
        | (.error e, w2) => (.error e, w2)

/-- The thread-creation block of lines 300-320 (run when the root was
deleted): a relay placeholder post creates the destination thread — sent
with `thread_name` for a forum, or sent plain and explicitly converted via
`create_thread` for a text channel; these sends are not inside any `try`.
With a root present, `thread_id` stays `0`. -/
def threadCreateStep (ot : OrigThread) (dest_chan : DestChan) (w : World) :
    Except PyExn (Option Int) × World :=
  match rootOf ot with
  | some _ => (.ok (some 0), w)
  | none =>
    let fw := fetch_create_webhook_w w
    let w1 := fw.2
    match dest_chan with
    | .guildForum _ =>
      let call : SendCall :=
        { content := "This message has been deleted by original author",
          embeds := [], username := none, avatar_url := none,
          reply_to := none, thread := none, thread_name := some ot.name,
          fromFallback := false }
      match webhookSendRaise call w1 with
      | (.ok sm, w2) => (.ok (some sm.chanId), w2)
      | (.error e, w2) => (.error e, w2)
    | .guildText _ =>
      let call : SendCall :=
        { content := "This message has been deleted by original author",
          embeds := [], username := none, avatar_url := none,
          reply_to := none, thread := none, thread_name := none,
          fromFallback := false }
      match webhookSendRaise call w1 with
      | (.ok sm, w2) =>
        let ct := create_thread_from_message sm ot.name w2
        (.ok (some ct.1), ct.2)
      | (.error e, w2) => (.error e, w2)
    | .otherChan _ => (.ok (some 0), w1)

/-- `migrate_thread(orig_thread, dest_chan)`: kind-pair gate, history
flattening (oldest-first), the creation block, then the replay loop with
`parent_msg = rootOf ot` and the resulting starting thread id. -/
def migrate_thread (ot : OrigThread) (dest_chan : DestChan) (w : World) :
    Except PyExn Unit × World :=
  if threadPairOk ot dest_chan = false then (.ok (), w)
  else
    match flatten_history_iterator ot.history true with
    | .error e => (.error e, w)
    | .ok history_list =>
      match threadCreateStep ot dest_chan w with
      | (.error e, w') => (.error e, w')
      | (.ok thread_id0, w') =>
        migrateThreadLoop dest_chan ot (rootOf ot) history_list.enum thread_id0 w'

/-! ## Channel Migrator (`migrate_channel`, lines 338-366)

A channel-history message pairs the message itself with the thread it owns
(if any), so the text-channel loop can dispatch on `msg.thread`. -/

structure ChanMsg where
  msg : Msg
  thread : Option OrigThread
deriving DecidableEq, Repr

/-- A source channel: a forum's archived-post listing and active-post
listing (both in the platform's newest-first order, reversed by the code),
or a text channel's history events. -/
inductive OrigChan
  | guildForumChan (archived_posts : List OrigThread) (active_posts : List OrigThread)
  | guildTextChan (hist : List (HistEvent ChanMsg))
deriving DecidableEq, Repr

/-- The forum-case loops of lines 349-355 (each post migrated as a
thread). -/
def migratePostsLoop (dest_chan : DestChan) :
    List OrigThread → World → Except PyExn Unit × World
  | [], w => (.ok (), w)
  | post :: rest, w =>
    match migrate_thread post dest_chan w with
    | (.ok _, w1) => migratePostsLoop dest_chan rest w1
    | (.error e, w1) => (.error e, w1)

/-- The text-case loop of lines 361-365: messages owning a thread delegate
to `migrate_thread`, the others are migrated standalone (result
discarded). -/
def migrateChanMsgsLoop (dest_chan : DestChan) :
    List ChanMsg → World → Except PyExn Unit × World
  | [], w => (.ok (), w)
  | cm :: rest, w =>
    match cm.thread with
    | some t =>
      match migrate_thread t dest_chan w with
      | (.ok _, w1) => migrateChanMsgsLoop dest_chan rest w1
      | (.error e, w1) => (.error e, w1)
    | none =>
      match migrate_message cm.msg dest_chan none w with
      | (.ok _, w1) => migrateChanMsgsLoop dest_chan rest w1
      | (.error e, w1) => (.error e, w1)

/-- `migrate_channel(orig_chan, dest_chan, client)`: kind gates, then the
forum loops (archived before active, both reversed to oldest-first) or
the text-history replay. -/
def migrate_channel (orig_chan : OrigChan) (dest_chan : DestChan) (w : World) :
    Except PyExn Unit × World :=
  match orig_chan with
  | .guildForumChan archived_posts active_posts =>
    match dest_chan with
    | .guildForum _ =>
      match migratePostsLoop dest_chan archived_posts.reverse w with
      | (.ok _, w1) => migratePostsLoop dest_chan active_posts.reverse w1
      | (.error e, w1) => (.error e, w1)
    | _ => (.ok (), w)
  | .guildTextChan hist =>
    match dest_chan with
    | .guildText _ =>
      match flatten_history_iterator hist true with
      | .ok messages => migrateChanMsgsLoop dest_chan messages w
      | .error e => (.error e, w)
    | _ => (.ok (), w)

/-! ## Infrastructure lemmas -/

lemma composeBase_len (m : Msg) : 1 ≤ (composeBase m).length := by
  show 1 ≤ (composeReply m ++ "\n" ++ m.content).length
  rw [String.length_append, String.length_append]
  have h1 : ("\n" : String).length = 1 := rfl
  omega

lemma composeAttach_len (m : Msg) (t : String) :
    t.length ≤ (composeAttach m t).length := by
  rw [composeAttach]
  split
  · rw [String.length_append, String.length_append]
    omega
  · exact Nat.le_refl _

lemma foldl_sticker_len (l : List Sticker) :
    ∀ t : String, t.length ≤ (l.foldl (fun t s => s.url ++ "\n" ++ t) t).length := by
  induction l with
  | nil => intro t; exact Nat.le_refl _
  | cons s l ih =>
    intro t
    rw [List.foldl_cons]
    refine Nat.le_trans ?_ (ih (s.url ++ "\n" ++ t))
    rw [String.length_append, String.length_append]
    omega

lemma composeStickers_len (m : Msg) (gs : List Sticker) (t : String) :
    t.length ≤ (composeStickers m gs t).length := by
  rw [composeStickers]
  split
  · refine Nat.le_trans ?_ (foldl_sticker_len _ _)
    split
    · rw [String.length_append, String.length_append]
      omega
    · exact Nat.le_refl _
  · exact Nat.le_refl _

lemma composePoll_len (m : Msg) (t : String) :
    t.length ≤ (composePoll m t).length := by
  rw [composePoll]
  split
  · rw [String.length_append, String.length_append]
    omega
  · exact Nat.le_refl _

lemma composeText_len (m : Msg) (gs : List Sticker) :
    1 ≤ (composeText m gs).length := by
  refine Nat.le_trans (composeBase_len m) ?_
  refine Nat.le_trans (composeAttach_len m _) ?_
  refine Nat.le_trans (composeStickers_len m gs _) ?_
  exact composePoll_len m _

lemma splitLimit_ne_nil (s : String) (h : 1 ≤ s.length) :
    ∃ c0 rest, splitLimit s = c0 :: rest := by
  have hlen : s.toList.length = s.length := rfl
  rcases hl : s.toList with _ | ⟨c, cs⟩
  · rw [hl] at hlen
    simp at hlen
    omega
  · refine ⟨String.mk ((c :: cs).take 2000),
      (chunksOfAux 2000 cs.length ((c :: cs).drop 2000)).map (fun l => String.mk l), ?_⟩
    show (chunksOf MESSAGE_LEN_LIMIT s.toList).map (fun cs => String.mk cs) = _
    rw [hl]
    show (chunksOfAux 2000 (c :: cs).length (c :: cs)).map (fun cs => String.mk cs) = _
    rw [List.length_cons]
    rfl

/-- The success flag carried by each of `migrate_message`'s possible
returns (`none` for the bare `return`). -/
def successFlag : MigrateResult → Option Bool
  | .retNone => none
  | .retPair ok _ => some ok
  | .retTriple ok _ _ => some ok

lemma webhookSendRaise_snd (call : SendCall) (w : World) :
    (webhookSendRaise call w).2 = (webhookSendAttempt call w).2 := by
  rcases h : webhookSendAttempt call w with ⟨o, w'⟩
  cases o <;> simp [webhookSendRaise, h]

lemma migrate_message_snd (m : Msg) (d : DestChan) (tid : Option Int) (w : World) :
    (migrate_message m d tid w).2
      = if destTypeOk d = false then logMigration m w
        else (migrateLoopRunAux m tid (logMigration m w)).2 := by
  rw [migrate_message]
  split
  · rfl
  · rcases hrun : migrateLoopRunAux m tid (logMigration m w) with ⟨res, w2⟩
    cases res with
    | ok lo =>
      cases lo with
      | completed s t => rfl
      | aborted => rfl
    | error e => rfl

lemma sendChunksGo_migrations :
    ∀ (chunks : List String) (m : Msg) (th : Option Int) (tn : Option String)
      (s : Option SentMsg) (o : Option Int) (w : World),
      ((sendChunksGo m th tn chunks s o w).2).migrations = w.migrations := by
  intro chunks
  induction chunks with
  | nil => intro m th tn s o w; rfl
  | cons text rest ih =>
    intro m th tn s o w
    rw [sendChunksGo]
    split
    · next m' w1 h =>
      rw [ih]
      have := congrArg (fun p => p.2.migrations) h
      simpa using this.symm
    · next code w1 h =>
      have hw1 := congrArg (fun p => p.2.migrations) h
      simp only [webhookSendAttempt_migrations] at hw1
      split
      · exact hw1.symm
      · exact hw1.symm
      · next reason hcl =>
        dsimp only
        split
        · next m2 w2 h2 =>
          rw [ih]
          have hw2 := congrArg (fun p => p.2.migrations) h2
          simp only [webhookSendAttempt_migrations] at hw2
          rw [← hw2, ← hw1]
        · next c2 w2 h2 =>
          have hw2 := congrArg (fun p => p.2.migrations) h2
          simp only [webhookSendAttempt_migrations] at hw2
          show w2.migrations = w.migrations
          rw [← hw2, ← hw1]

lemma migrateLoopRunAux_migrations (m : Msg) (tid : Option Int) (w : World) :
    ((migrateLoopRunAux m tid w).2).migrations = w.migrations := by
  rw [migrateLoopRunAux]
  rw [sendChunksGo_migrations]
  exact fetch_create_webhook_w_migrations w

lemma migrate_message_migrations (m : Msg) (d : DestChan) (tid : Option Int) (w : World) :
    ((migrate_message m d tid w).2).migrations = w.migrations ++ [m] := by
  rw [migrate_message_snd]
  split
  · rfl
  · rw [migrateLoopRunAux_migrations]
    rfl

lemma sendChunksGo_sends :
    ∀ (chunks : List String) (m : Msg) (th : Option Int) (tn : Option String)
      (s : Option SentMsg) (o : Option Int) (w : World) (call : SendCall),
      call ∈ ((sendChunksGo m th tn chunks s o w).2).sends →
      call ∈ w.sends ∨ (call.thread = th ∧ call.thread_name = tn) := by
  intro chunks
  induction chunks with
  | nil => intro m th tn s o w call h; exact Or.inl h
  | cons text rest ih =>
    intro m th tn s o w call hc
    rw [sendChunksGo] at hc
    split at hc
    · next m' w1 h =>
      rcases ih _ _ _ _ _ _ _ hc with h1 | h1
      · have hw1 := congrArg (fun p => p.2.sends) h
        simp only [webhookSendAttempt_sends] at hw1
        rw [← hw1] at h1
        rcases List.mem_append.mp h1 with h2 | h2
        · exact Or.inl h2
        · simp only [List.mem_singleton] at h2
          subst h2
          exact Or.inr ⟨rfl, rfl⟩
      · exact Or.inr h1
    · next code w1 h =>
      have hw1 := congrArg (fun p => p.2.sends) h
      simp only [webhookSendAttempt_sends] at hw1
      split at hc
      · dsimp only at hc
        rw [← hw1] at hc
        rcases List.mem_append.mp hc with h2 | h2
        · exact Or.inl h2
        · simp only [List.mem_singleton] at h2
          subst h2
          exact Or.inr ⟨rfl, rfl⟩
      · dsimp only at hc
        rw [← hw1] at hc
        rcases List.mem_append.mp hc with h2 | h2
        · exact Or.inl h2
        · simp only [List.mem_singleton] at h2
          subst h2
          exact Or.inr ⟨rfl, rfl⟩
      · next reason hcl =>
        dsimp only at hc
        split at hc
        · next m2 w2 h2 =>
          have hw2 := congrArg (fun p => p.2.sends) h2
          simp only [webhookSendAttempt_sends] at hw2
          rcases ih _ _ _ _ _ _ _ hc with h1 | h1
          · rw [← hw2] at h1
            rcases List.mem_append.mp h1 with h3 | h3
            · rw [← hw1] at h3
              rcases List.mem_append.mp h3 with h4 | h4
              · exact Or.inl h4
              · simp only [List.mem_singleton] at h4
                subst h4
                exact Or.inr ⟨rfl, rfl⟩
            · simp only [List.mem_singleton] at h3
              subst h3
              exact Or.inr ⟨rfl, rfl⟩
          · exact Or.inr h1
        · next c2 w2 h2 =>
          have hw2 := congrArg (fun p => p.2.sends) h2
          simp only [webhookSendAttempt_sends] at hw2
          dsimp only at hc
          rw [← hw2] at hc
          rcases List.mem_append.mp hc with h3 | h3
          · rw [← hw1] at h3
            rcases List.mem_append.mp h3 with h4 | h4
            · exact Or.inl h4
            · simp only [List.mem_singleton] at h4
              subst h4
              exact Or.inr ⟨rfl, rfl⟩
          · simp only [List.mem_singleton] at h3
            subst h3
            exact Or.inr ⟨rfl, rfl⟩

/-! ## Sample inputs used by witnesses and counterexamples -/

/-- A destination message landing in a plain (non-thread) channel. -/
def sampleSent : SentMsg := { id := 9, chanId := 55, chanIsThread := false }

/-- A world whose sends all succeed into a non-thread channel. -/
def sampleWorld : World :=
  { webhooks := [], next_webhook_id := 100, guildStickers := [],
    outcomes := fun _ => .ok sampleSent, sendCount := 0, sends := [],
    whFetchCount := 0, next_thread_id := 500, migrations := [] }

/-- The spec scenario's plain message: body `hi`, nothing else. -/
def sampleHiMsg : Msg :=
  { content := "hi", embeds := [], attachments := [], author_display_name := "al",
    author_avatar_url := "av", channelName := "ch", referenced_message := none,
    sticker_items := [], poll := none, reactions := [], id := 1, jump_url := "u" }

/-- C3: when the destination channel is neither text- nor forum-type,
`migrate_message` performs no sends and no relay resolution and returns —
but what line 172 returns is the PAIR `(False, None)`, not the documented
three-component `(False, None, None)`; unpacking it as a triple raises
`ValueError`.  This theorem evaluates the code on such inputs. -/
theorem c3_type_reject_returns_pair (m : Msg) (d : DestChan) (tid : Option Int)
    (w : World) (hd : destTypeOk d = false) :
    migrate_message m d tid w = (.ok (.retPair false none), logMigration m w)
    ∧ ((migrate_message m d tid w).2).sends = w.sends
    ∧ ((migrate_message m d tid w).2).whFetchCount = w.whFetchCount
    ∧ unpack3 (.retPair false none) = .error .valueError := by
  have h : migrate_message m d tid w = (.ok (.retPair false none), logMigration m w) := by
    simp only [migrate_message]
    rw [if_pos hd]
  exact ⟨h, by rw [h]; rfl, by rw [h]; rfl, rfl⟩

/-- Witness for C3 at a category-kind destination channel. -/
theorem c3_witness :
    migrate_message sampleHiMsg (DestChan.otherChan 9) none sampleWorld
      = (.ok (.retPair false none), logMigration sampleHiMsg sampleWorld)
    ∧ ((migrate_message sampleHiMsg (DestChan.otherChan 9) none sampleWorld).2).sends
      = sampleWorld.sends
    ∧ ((migrate_message sampleHiMsg (DestChan.otherChan 9) none sampleWorld).2).whFetchCount
      = sampleWorld.whFetchCount
    ∧ unpack3 (.retPair false none) = .error .valueError :=
  c3_type_reject_returns_pair sampleHiMsg (DestChan.otherChan 9) none sampleWorld rfl

/-- C10: whenever the per-chunk send loop runs to completion — whatever the
outcomes of the individual sends, including every original chunk failing
recoverably and being replaced by a fallback notice — `migrate_message`
returns success `True`; and a `False` success flag can only come from the
destination-type rejection, which happens before any send. -/
theorem c10_loop_completion_true (m : Msg) (d : DestChan) (tid : Option Int) (w : World) :
    (∀ (s : Option SentMsg) (t : Option Int) (w' : World),
        destTypeOk d = true →
        migrateLoopRunAux m tid (logMigration m w) = (.ok (.completed s t), w') →
        migrate_message m d tid w = (.ok (.retTriple true t s), w'))
    ∧ (∀ (r : MigrateResult) (w' : World),
        migrate_message m d tid w = (.ok r, w') →
        successFlag r = some false →
        destTypeOk d = false ∧ w'.sends = w.sends) := by
  constructor
  · intro s t w' hd hloop
    simp only [migrate_message]
    rw [if_neg (by rw [hd]; simp), hloop]
  · intro r w' hmm hflag
    cases hdt : destTypeOk d with
    | false =>
      refine ⟨rfl, ?_⟩
      have h : migrate_message m d tid w = (.ok (.retPair false none), logMigration m w) := by
        simp only [migrate_message]
        rw [if_pos hdt]
      rw [h] at hmm
      injection hmm with h1 h2
      rw [← h2]
      rfl
    | true =>
      exfalso
      simp only [migrate_message] at hmm
      rw [if_neg (by rw [hdt]; simp)] at hmm
      rcases hrun : migrateLoopRunAux m tid (logMigration m w) with ⟨res, w2⟩
      rw [hrun] at hmm
      cases res with
      | ok lo =>
        cases lo with
        | completed s t =>
          have hmm2 : ((.ok (.retTriple true t s) : Except PyExn MigrateResult), w2)
              = (.ok r, w') := hmm
          injection hmm2 with h1 h2
          injection h1 with h3
          rw [← h3] at hflag
          simp [successFlag] at hflag
        | aborted =>
          have hmm2 : ((.ok .retNone : Except PyExn MigrateResult), w2) = (.ok r, w') := hmm
          injection hmm2 with h1 h2
          injection h1 with h3
          rw [← h3] at hflag
          simp [successFlag] at hflag
      | error e =>
        have hmm2 : ((.error e : Except PyExn MigrateResult), w2) = (.ok r, w') := hmm
        injection hmm2 with h1 h2
        exact Except.noConfusion h1

/-- Message for the C10 witness run. -/
def c10Msg : Msg := { sampleHiMsg with content := "x", id := 3, jump_url := "u3" }

/-- World for the C10 witness: the one real chunk send fails with 50006
(cannot send an empty message — a recoverable code), the fallback notice
send succeeds.  No original content is delivered, yet the loop completes. -/
def c10World : World :=
  { sampleWorld with
    outcomes := fun i => if i = 0 then .httpErr (.intCode 50006) else .ok sampleSent }

/-- Witness for C10: every original chunk send failed recoverably and only
the fallback notice landed, yet `migrate_message` reports success. -/
theorem c10_witness :
    migrate_message c10Msg (DestChan.guildText 1) none c10World
      = (.ok (.retTriple true none (some sampleSent)),
         (migrateLoopRunAux c10Msg none (logMigration c10Msg c10World)).2) :=
  (c10_loop_completion_true c10Msg (DestChan.guildText 1) none c10World).1
    (some sampleSent) none _ rfl rfl

/-- C6 (amended): the thread-id state is indeed tri-state — `None` maps to
no thread fields, `0` to a creation request named after the origin channel,
`t > 0` (any nonzero `t`) to targeting `t` — but `migrate_message` derives
the `thread` / `thread_name` pair once from the incoming `thread_id` and
sends EVERY chunk of the message with that same pair: with `thread_id = 0`
the remaining chunks of a multi-chunk message carry the creation request
again instead of the id created by the first chunk (see
`c6_counterexample`); the concrete id is reused only when a later call
passes it back in as `thread_id`. -/
theorem c6_thread_fields_constant (m : Msg) (d : DestChan) (tid : Option Int) (w : World) :
    (∀ call, call ∈ ((migrate_message m d tid w).2).sends →
        call ∈ w.sends ∨ (call.thread, call.thread_name) = threadFields tid m.channelName)
    ∧ threadFields none m.channelName = (none, none)
    ∧ threadFields (some 0) m.channelName = (none, some m.channelName)
    ∧ (∀ t : Int, t ≠ 0 → threadFields (some t) m.channelName = (some t, none)) := by
  refine ⟨?_, rfl, by simp [threadFields], ?_⟩
  · intro call hc
    rw [migrate_message_snd] at hc
    split at hc
    · exact Or.inl hc
    · rw [migrateLoopRunAux] at hc
      rcases sendChunksGo_sends _ _ _ _ _ _ _ _ hc with h1 | h1
      · exact Or.inl h1
      · right
        rw [h1.1, h1.2]
  · intro t ht
    simp only [threadFields]
    rw [if_neg ht]

/-- Message whose composed body spans two chunks (2001 `a`s plus the
always-prepended newline). -/
def c6LongMsg : Msg :=
  { content := String.mk (List.replicate 2001 'a'), embeds := [], attachments := [],
    author_display_name := "al", author_avatar_url := "av", channelName := "chan",
    referenced_message := none, sticker_items := [], poll := none, reactions := [],
    id := 2, jump_url := "u2" }

/-- World whose sends all succeed into thread 777 (as a send carrying a
`thread_name` creation request would). -/
def c6World : World :=
  { sampleWorld with
    outcomes := fun i => .ok { id := i + 1, chanId := 777, chanIsThread := true } }

/-- Helper for the C6 counterexample: under an oracle whose sends all
succeed into thread 777, the chunk loop logs one send per chunk and, when
there is at least one chunk, completes with output thread id 777 and the
last sent message. -/
lemma sendChunksGo_thread_oracle :
    ∀ (chunks : List String) (m : Msg) (th : Option Int) (tn : Option String)
      (s : Option SentMsg) (o : Option Int) (w : World),
      (∀ i, w.outcomes i = .ok { id := i + 1, chanId := 777, chanIsThread := true }) →
      (sendChunksGo m th tn chunks s o w).2.sends.length = w.sends.length + chunks.length
      ∧ (sendChunksGo m th tn chunks s o w).1
          = (if chunks.length = 0 then .ok (.completed s o)
             else .ok (.completed
                (some { id := w.sendCount + chunks.length, chanId := 777, chanIsThread := true })
                (some 777))) := by
  intro chunks
  induction chunks with
  | nil =>
    intro m th tn s o w hok
    exact ⟨by simp [sendChunksGo], by simp [sendChunksGo]⟩
  | cons text rest ih =>
    intro m th tn s o w hok
    rw [sendChunksGo]
    split
    · next m' w1 h =>
      have hfst := congrArg (fun p => p.1) h
      simp only [webhookSendAttempt_fst] at hfst
      rw [hok w.sendCount] at hfst
      injection hfst with hm'
      have houtc : w1.outcomes = w.outcomes := by
        have := congrArg (fun p => p.2.outcomes) h
        simpa using this.symm
      have hscnt : w1.sendCount = w.sendCount + 1 := by
        have := congrArg (fun p => p.2.sendCount) h
        simpa using this.symm
      have hsnds : w1.sends.length = w.sends.length + 1 := by
        have := congrArg (fun p => p.2.sends.length) h
        simp only [webhookSendAttempt_sends, List.length_append, List.length_singleton] at this
        exact this.symm
      have hok1 : ∀ i, w1.outcomes i = .ok { id := i + 1, chanId := 777, chanIsThread := true } := by
        intro i
        rw [houtc]
        exact hok i
      obtain ⟨ihl, ihr⟩ := ih m th tn (some m')
        (if m'.chanIsThread then some m'.chanId else o) w1 hok1
      subst hm'
      constructor
      · rw [ihl, hsnds, List.length_cons]
        omega
      · rw [ihr]
        cases rest with
        | nil => simp [hscnt]
        | cons r rs =>
          have hne : ¬((r :: rs).length = 0) := by simp
          rw [if_neg hne, if_neg (by simp : ¬((text :: r :: rs).length = 0))]
          rw [hscnt]
          have harith : w.sendCount + 1 + (r :: rs).length
              = w.sendCount + (text :: r :: rs).length := by
            simp only [List.length_cons]
            omega
          rw [harith]
    · next code w1 h =>
      exfalso
      have hfst := congrArg (fun p => p.1) h
      simp only [webhookSendAttempt_fst] at hfst
      rw [hok w.sendCount] at hfst
      exact SendOutcome.noConfusion hfst

/-- Helper: a two-element list all of whose images are `x` maps to
`[x, x]`. -/
lemma map_eq_pair {α β : Type} (f : α → β) (x : β) (l : List α) (h2 : l.length = 2)
    (hall : ∀ c ∈ l, f c = x) : l.map f = [x, x] := by
  match l, h2 with
  | [a, b], _ =>
    rw [List.map_cons, List.map_cons, List.map_nil,
      hall a (by simp), hall b (by simp)]

lemma c6_composed_len :
    (composeText c6LongMsg []).toList.length = 2002 := by
  have hct : composeText c6LongMsg [] = String.mk ('\n' :: List.replicate 2001 'a') := rfl
  rw [hct]
  show ('\n' :: List.replicate 2001 'a').length = 2002
  rw [List.length_cons, List.length_replicate]

lemma c6_chunks_len : (splitLimit (composeText c6LongMsg [])).length = 2 := by
  show ((chunksOf MESSAGE_LEN_LIMIT (composeText c6LongMsg []).toList).map
    (fun cs => String.mk cs)).length = 2
  rw [List.length_map]
  show (chunksOfAux 2000 (composeText c6LongMsg []).toList.length
    (composeText c6LongMsg []).toList).length = 2
  obtain ⟨_, hl, _⟩ := chunksOfAux_spec (composeText c6LongMsg []).toList.length
    (composeText c6LongMsg []).toList (Nat.le_refl _)
  rw [hl, c6_composed_len]

set_option maxRecDepth 8192 in
/-- Counterexample for C6: the composed body of `c6LongMsg` spans two
chunks; migrated with `thread_id = 0` under an oracle whose sends land in
thread 777, the first send creates destination thread 777 and 777 is
captured as the output thread id (third conjunct), yet BOTH logged sends
carry `thread = None` and `thread_name = "chan"` (second conjunct): the
remaining chunk of the same message issues another thread-creation request
instead of reusing the concrete id, contradicting the claim. -/
theorem c6_counterexample :
    ((migrate_message c6LongMsg (DestChan.guildForum 2) (some 0) c6World).2).sends.length = 2
    ∧ ((migrate_message c6LongMsg (DestChan.guildForum 2) (some 0) c6World).2).sends.map
        (fun c => (c.thread, c.thread_name))
      = [((none : Option Int), some "chan"), (none, some "chan")]
    ∧ (migrate_message c6LongMsg (DestChan.guildForum 2) (some 0) c6World).1
      = .ok (.retTriple true (some 777)
          (some { id := 2, chanId := 777, chanIsThread := true })) := by
  have hloop : migrateLoopRunAux c6LongMsg (some 0) (logMigration c6LongMsg c6World)
      = sendChunksGo c6LongMsg none (some "chan") (splitLimit (composeText c6LongMsg []))
          none none (fetch_create_webhook_w (logMigration c6LongMsg c6World)).2 := rfl
  obtain ⟨hlen, hres⟩ := sendChunksGo_thread_oracle (splitLimit (composeText c6LongMsg []))
    c6LongMsg none (some "chan") none none
    (fetch_create_webhook_w (logMigration c6LongMsg c6World)).2 (fun i => rfl)
  rw [c6_chunks_len] at hlen hres
  rw [if_neg (by omega : ¬(2 = 0))] at hres
  have hw1sc : (fetch_create_webhook_w (logMigration c6LongMsg c6World)).2.sendCount = 0 := rfl
  have hw1sd : (fetch_create_webhook_w (logMigration c6LongMsg c6World)).2.sends = [] := rfl
  rw [hw1sc] at hres
  simp only [Nat.zero_add] at hres
  rw [hw1sd] at hlen
  have hmm : migrate_message c6LongMsg (DestChan.guildForum 2) (some 0) c6World
      = (.ok (.retTriple true (some 777)
          (some { id := 2, chanId := 777, chanIsThread := true })),
         (sendChunksGo c6LongMsg none (some "chan") (splitLimit (composeText c6LongMsg []))
            none none (fetch_create_webhook_w (logMigration c6LongMsg c6World)).2).2) := by
    simp only [migrate_message]
    rw [if_neg (by simp [destTypeOk])]
    rw [hloop]
    rcases hrx : sendChunksGo c6LongMsg none (some "chan") (splitLimit (composeText c6LongMsg []))
        none none (fetch_create_webhook_w (logMigration c6LongMsg c6World)).2 with ⟨res, w2⟩
    rw [hrx] at hres
    dsimp only at hres
    rw [hres]
  refine ⟨?_, ?_, ?_⟩
  · rw [hmm]
    dsimp only
    rw [hlen]
    rfl
  · rw [hmm]
    dsimp only
    refine map_eq_pair _ _ _ ?_ ?_
    · rw [hlen]
      rfl
    · intro call hc
      have hmem := sendChunksGo_sends _ _ _ _ _ _ _ _ hc
      rcases hmem with h1 | h1
      · rw [hw1sd] at h1
        exact absurd h1 (List.not_mem_nil call)
      · rw [h1.1, h1.2]
  · rw [hmm]

/-- The single send issued for the C6 witness message. -/
def c6wCall : SendCall :=
  { content := "\nok", embeds := [], username := some "al", avatar_url := some "av",
    reply_to := none, thread := some 5, thread_name := none, fromFallback := false }

/-- Message for the C6 witness run. -/
def c6wMsg : Msg := { sampleHiMsg with content := "ok", id := 7, jump_url := "u7" }

/-- Witness for C6 (amended): a send logged by `migrate_message` with
`thread_id = 5` carries exactly the fields `threadFields` derives. -/
theorem c6_witness :
    c6wCall ∈ ((migrate_message c6wMsg (DestChan.guildText 1) (some 5) sampleWorld).2).sends
    ∧ (c6wCall ∈ sampleWorld.sends
      ∨ (c6wCall.thread, c6wCall.thread_name) = threadFields (some 5) c6wMsg.channelName) :=
  ⟨by decide,
   (c6_thread_fields_constant c6wMsg (DestChan.guildText 1) (some 5) sampleWorld).1
     c6wCall (by decide)⟩

/-- One-chunk success step of the send loop. -/
lemma sendChunksGo_single_ok (m : Msg) (th : Option Int) (tn : Option String)
    (s0 : String) (w : World) (sm : SentMsg)
    (h6 : w.outcomes w.sendCount = .ok sm) (h7 : sm.chanIsThread = false) :
    sendChunksGo m th tn [s0] none none w
      = (.ok (.completed (some sm) none),
         (webhookSendAttempt
           { content := s0, embeds := m.embeds,
             username := some m.author_display_name,
             avatar_url := some m.author_avatar_url, reply_to := none,
             thread := th, thread_name := tn, fromFallback := false } w).2) := by
  rw [sendChunksGo]
  rcases hatt : webhookSendAttempt
      { content := s0, embeds := m.embeds,
        username := some m.author_display_name, avatar_url := some m.author_avatar_url,
        reply_to := none, thread := th, thread_name := tn, fromFallback := false } w
    with ⟨oc, w1⟩
  have hoc : oc = .ok sm := by
    have h1 := congrArg (fun p => p.1) hatt
    simp only [webhookSendAttempt_fst] at h1
    rw [h6] at h1
    exact h1.symm
  subst hoc
  dsimp only
  rw [h7]
  rfl

/-- First-chunk terminal-denial step of the send loop: the bare `return`. -/
lemma sendChunksGo_abort (m : Msg) (th : Option Int) (tn : Option String)
    (s0 : String) (rest : List String) (w : World) (c : Int)
    (ho : w.outcomes w.sendCount = .httpErr (.intCode c))
    (hcode : c = 10003 ∨ c = 10008 ∨ c = 50001 ∨ c = 50013) :
    sendChunksGo m th tn (s0 :: rest) none none w
      = (.ok .aborted,
         (webhookSendAttempt
           { content := s0, embeds := m.embeds,
             username := some m.author_display_name,
             avatar_url := some m.author_avatar_url, reply_to := none,
             thread := th, thread_name := tn, fromFallback := false } w).2) := by
  have hcl : classifySendErr (.intCode c) = .abort := by
    rcases hcode with rfl | rfl | rfl | rfl <;> rfl
  rw [sendChunksGo]
  rcases hatt : webhookSendAttempt
      { content := s0, embeds := m.embeds,
        username := some m.author_display_name, avatar_url := some m.author_avatar_url,
        reply_to := none, thread := th, thread_name := tn, fromFallback := false } w
    with ⟨oc, w1⟩
  have hoc : oc = .httpErr (.intCode c) := by
    have h1 := congrArg (fun p => p.1) hatt
    simp only [webhookSendAttempt_fst] at h1
    rw [ho] at h1
    exact h1.symm
  subst hoc
  dsimp only
  rw [hcl]

/-- Counterexample for C7: the spec scenario message `{body:"hi"}` migrated
to a text destination with `thread_id=None` issues one send whose content
is `"\nhi"` — line 185 prepends the (empty) reply quote plus a newline
unconditionally — not `"hi"` as claimed. -/
theorem c7_counterexample :
    ((migrate_message sampleHiMsg (DestChan.guildText 1) none sampleWorld).2).sends.map
      (fun c => c.content) = ["\nhi"]
    ∧ ¬(((migrate_message sampleHiMsg (DestChan.guildText 1) none sampleWorld).2).sends.map
      (fun c => c.content) = ["hi"])
    ∧ (migrate_message sampleHiMsg (DestChan.guildText 1) none sampleWorld).1
      = .ok (.retTriple true none (some sampleSent)) :=
  ⟨by decide, by decide, rfl⟩

/-- C7 (amended): for every message with body `hi`, no reply reference, no
attachments, no stickers and no poll, migrated to a text-channel
destination with `thread_id = None` whose send succeeds into a non-thread
channel, `migrate_message` issues exactly one send — with no thread fields
set — and returns `(True, None, sent_message)`; but the send's content is
`"\n" ++ "hi"` (the always-prepended empty reply quote), not `"hi"`. -/
theorem c7_plain_message_newline (m : Msg) (cid : Nat) (w : World) (sm : SentMsg)
    (h1 : m.content = "hi") (h2 : m.referenced_message = none) (h3 : m.attachments = [])
    (h4 : m.sticker_items = []) (h5 : m.poll = none)
    (h6 : w.outcomes w.sendCount = .ok sm) (h7 : sm.chanIsThread = false) :
    (migrate_message m (DestChan.guildText cid) none w).1
      = .ok (.retTriple true none (some sm))
    ∧ ((migrate_message m (DestChan.guildText cid) none w).2).sends
      = w.sends ++
        [{ content := "\nhi", embeds := m.embeds,
           username := some m.author_display_name,
           avatar_url := some m.author_avatar_url, reply_to := none,
           thread := none, thread_name := none, fromFallback := false }] := by
  have hct : ∀ gs : List Sticker, composeText m gs = "\nhi" := by
    intro gs
    simp [composeText, composePoll, composeStickers, composeAttach, composeBase,
      composeReply, h1, h2, h3, h4, h5]
  have hsp : splitLimit ("\nhi") = ["\nhi"] := by decide
  have ho1 : (fetch_create_webhook_w (logMigration m w)).2.outcomes
      ((fetch_create_webhook_w (logMigration m w)).2.sendCount) = .ok sm := by
    show w.outcomes w.sendCount = _
    exact h6
  have hone := sendChunksGo_single_ok m (threadFields none m.channelName).1
    (threadFields none m.channelName).2 "\nhi"
    (fetch_create_webhook_w (logMigration m w)).2 sm ho1 h7
  have hfin : migrate_message m (DestChan.guildText cid) none w
      = (.ok (.retTriple true none (some sm)),
         (webhookSendAttempt
           { content := "\nhi", embeds := m.embeds,
             username := some m.author_display_name,
             avatar_url := some m.author_avatar_url, reply_to := none,
             thread := (threadFields none m.channelName).1,
             thread_name := (threadFields none m.channelName).2, fromFallback := false }
           (fetch_create_webhook_w (logMigration m w)).2).2) := by
    simp only [migrate_message]
    rw [if_neg (by simp [destTypeOk])]
    rw [migrateLoopRunAux]
    rw [hct, hsp]
    rw [hone]
  constructor
  · rw [hfin]
  · rw [hfin]
    dsimp only
    simp only [webhookSendAttempt_sends]
    have hws : (fetch_create_webhook_w (logMigration m w)).2.sends = w.sends := rfl
    rw [hws]
    rfl

/-- Witness for C7 (amended) at the sample scenario inputs. -/
theorem c7_witness :
    (migrate_message sampleHiMsg (DestChan.guildText 1) none sampleWorld).1
      = .ok (.retTriple true none (some sampleSent))
    ∧ ((migrate_message sampleHiMsg (DestChan.guildText 1) none sampleWorld).2).sends
      = sampleWorld.sends ++
        [{ content := "\nhi", embeds := sampleHiMsg.embeds,
           username := some sampleHiMsg.author_display_name,
           avatar_url := some sampleHiMsg.author_avatar_url, reply_to := none,
           thread := none, thread_name := none, fromFallback := false }] :=
  c7_plain_message_newline sampleHiMsg 1 sampleWorld sampleSent rfl rfl rfl rfl rfl rfl rfl

/-- C1: whatever the message, the thread-id state and the state of the
remote, if the destination type is accepted and the first chunk's send
fails with 10003, 10008, 50001 or 50013, `migrate_message` hits the bare
`return` of lines 235/239/243/250: it returns Python `None` (not the
`(False, None, None)` the spec and its own docstring document — see the
`retNone` result and `unpack3`'s `TypeError`), sends no fallback notice,
and attempts no further sends (exactly one send call, the failed one, is
logged, and it is not the fallback call site). -/
theorem c1_terminal_denial_returns_bare_none (m : Msg) (d : DestChan) (tid : Option Int)
    (w : World) (c : Int) (hd : destTypeOk d = true)
    (hcode : c = 10003 ∨ c = 10008 ∨ c = 50001 ∨ c = 50013)
    (ho : w.outcomes w.sendCount = .httpErr (.intCode c)) :
    (migrate_message m d tid w).1 = .ok .retNone
    ∧ ((migrate_message m d tid w).2).sends.map (fun call => call.fromFallback)
      = w.sends.map (fun call => call.fromFallback) ++ [false]
    ∧ unpack3 .retNone = .error .typeError := by
  obtain ⟨c0, rest, hsp⟩ := splitLimit_ne_nil
    (composeText m (fetch_create_webhook_w (logMigration m w)).2.guildStickers)
    (composeText_len _ _)
  have ho1 : (fetch_create_webhook_w (logMigration m w)).2.outcomes
      ((fetch_create_webhook_w (logMigration m w)).2.sendCount) = .httpErr (.intCode c) := by
    show w.outcomes w.sendCount = _
    exact ho
  have habort := sendChunksGo_abort m (threadFields tid m.channelName).1
    (threadFields tid m.channelName).2 c0 rest
    (fetch_create_webhook_w (logMigration m w)).2 c ho1 hcode
  have hfin : migrate_message m d tid w
      = (.ok .retNone,
         (webhookSendAttempt
           { content := c0, embeds := m.embeds,
             username := some m.author_display_name,
             avatar_url := some m.author_avatar_url, reply_to := none,
             thread := (threadFields tid m.channelName).1,
             thread_name := (threadFields tid m.channelName).2, fromFallback := false }
           (fetch_create_webhook_w (logMigration m w)).2).2) := by
    simp only [migrate_message]
    rw [if_neg (by rw [hd]; simp)]
    rw [migrateLoopRunAux]
    rw [hsp]
    rw [habort]
  refine ⟨by rw [hfin], ?_, rfl⟩
  rw [hfin]
  dsimp only
  simp only [webhookSendAttempt_sends]
  have hws : (fetch_create_webhook_w (logMigration m w)).2.sends = w.sends := rfl
  rw [hws, List.map_append]
  rfl

/-- World for the C1 witness: the first send fails with no-access. -/
def c1World : World :=
  { sampleWorld with outcomes := fun _ => .httpErr (.intCode 50001) }

/-- Witness for C1 at a concrete denied destination. -/
theorem c1_witness :
    (migrate_message sampleHiMsg (DestChan.guildText 1) none c1World).1 = .ok .retNone
    ∧ ((migrate_message sampleHiMsg (DestChan.guildText 1) none c1World).2).sends.map
        (fun call => call.fromFallback)
      = c1World.sends.map (fun call => call.fromFallback) ++ [false]
    ∧ unpack3 .retNone = .error .typeError :=
  c1_terminal_denial_returns_bare_none sampleHiMsg (DestChan.guildText 1) none c1World
    50001 rfl (by decide) rfl

lemma threadLoopStep0_migrations (d : DestChan) (ot : OrigThread) (pm : Option Msg)
    (i : Nat) (msg : Msg) (tid : Option Int) (w : World) (m' : Msg)
    (hm : m' ∈ ((threadLoopStep0 d ot pm i msg tid w).2).migrations) :
    m' ∈ w.migrations ∨ pm = some m' := by
  rw [threadLoopStep0.eq_def] at hm
  split at hm
  · split at hm
    · rename_i pmv
      split at hm
      · split at hm
        · rename_i r w1 hmmres
          have hw1 : w1.migrations = w.migrations ++ [pmv] := by
            have h2 := migrate_message_migrations pmv d tid w
            rw [hmmres] at h2
            exact h2
          split at hm
          · dsimp only at hm
            rw [hw1] at hm
            rcases List.mem_append.mp hm with h | h
            · exact Or.inl h
            · simp only [List.mem_singleton] at h
              exact Or.inr (by rw [h])
          · dsimp only at hm
            rw [hw1] at hm
            rcases List.mem_append.mp hm with h | h
            · exact Or.inl h
            · simp only [List.mem_singleton] at h
              exact Or.inr (by rw [h])
        · rename_i e w1 hmmres
          have hw1 : w1.migrations = w.migrations ++ [pmv] := by
            have h2 := migrate_message_migrations pmv d tid w
            rw [hmmres] at h2
            exact h2
          dsimp only at hm
          rw [hw1] at hm
          rcases List.mem_append.mp hm with h | h
          · exact Or.inl h
          · simp only [List.mem_singleton] at h
            exact Or.inr (by rw [h])
      · exact Or.inl hm
    · rename_i pmv
      split at hm
      · rename_i r w1 hmmres
        have hw1 : w1.migrations = w.migrations ++ [pmv] := by
          have h2 := migrate_message_migrations pmv d none w
          rw [hmmres] at h2
          exact h2
        split at hm
        · split at hm
          · rename_i sm
            dsimp only at hm
            simp only [create_thread_from_message_migrations] at hm
            rw [hw1] at hm
            rcases List.mem_append.mp hm with h | h
            · exact Or.inl h
            · simp only [List.mem_singleton] at h
              exact Or.inr (by rw [h])
          · dsimp only at hm
            rw [hw1] at hm
            rcases List.mem_append.mp hm with h | h
            · exact Or.inl h
            · simp only [List.mem_singleton] at h
              exact Or.inr (by rw [h])
        · dsimp only at hm
          rw [hw1] at hm
          rcases List.mem_append.mp hm with h | h
          · exact Or.inl h
          · simp only [List.mem_singleton] at h
            exact Or.inr (by rw [h])
      · rename_i e w1 hmmres
        have hw1 : w1.migrations = w.migrations ++ [pmv] := by
          have h2 := migrate_message_migrations pmv d none w
          rw [hmmres] at h2
          exact h2
        dsimp only at hm
        rw [hw1] at hm
        rcases List.mem_append.mp hm with h | h
        · exact Or.inl h
        · simp only [List.mem_singleton] at h
          exact Or.inr (by rw [h])
    · exact Or.inl hm
  · exact Or.inl hm

lemma migrateThreadLoop_migrations :
    ∀ (l : List (Nat × Msg)) (d : DestChan) (ot : OrigThread) (pm : Option Msg)
      (tid : Option Int) (w : World) (m' : Msg),
      m' ∈ ((migrateThreadLoop d ot pm l tid w).2).migrations →
      m' ∈ w.migrations ∨ is_empty_message m' = false ∨ pm = some m' := by
  intro l
  induction l with
  | nil =>
    intro d ot pm tid w m' hm
    exact Or.inl hm
  | cons p rest ih =>
    obtain ⟨i, msg⟩ := p
    intro d ot pm tid w m' hm
    rw [migrateThreadLoop] at hm
    split at hm
    · rename_i e w1 hstep
      have h0 := threadLoopStep0_migrations d ot pm i msg tid w m'
        (by rw [congrArg (fun p => p.2) hstep]; exact hm)
      rcases h0 with h | h
      · exact Or.inl h
      · exact Or.inr (Or.inr h)
    · rename_i tid1 w1 hstep
      have hstep1 : ∀ x : Msg, x ∈ w1.migrations → x ∈ w.migrations ∨ pm = some x := by
        intro x hx
        exact threadLoopStep0_migrations d ot pm i msg tid w x
          (by rw [congrArg (fun p => p.2) hstep]; exact hx)
      split at hm
      · rcases ih d ot pm tid1 w1 m' hm with h | h | h
        · rcases hstep1 m' h with h2 | h2
          · exact Or.inl h2
          · exact Or.inr (Or.inr h2)
        · exact Or.inr (Or.inl h)
        · exact Or.inr (Or.inr h)
      · rename_i hne
        simp only [Bool.not_eq_true] at hne
        split at hm
        · rename_i r w2 hmm2
          have hw2 : w2.migrations = w1.migrations ++ [msg] := by
            have h2 := migrate_message_migrations msg d tid1 w1
            rw [hmm2] at h2
            exact h2
          have hclose : m' ∈ w2.migrations →
              m' ∈ w.migrations ∨ is_empty_message m' = false ∨ pm = some m' := by
            intro hx
            rw [hw2] at hx
            rcases List.mem_append.mp hx with h | h
            · rcases hstep1 m' h with h2 | h2
              · exact Or.inl h2
              · exact Or.inr (Or.inr h2)
            · simp only [List.mem_singleton] at h
              subst h
              exact Or.inr (Or.inl hne)
          split at hm
          · rename_i ok2 tid2 s2 hunp
            split at hm
            · exact hclose hm
            · rcases ih d ot pm tid2 w2 m' hm with h | h | h
              · exact hclose h
              · exact Or.inr (Or.inl h)
              · exact Or.inr (Or.inr h)
          · exact hclose hm
        · rename_i e w2 hmm2
          have hw2 : w2.migrations = w1.migrations ++ [msg] := by
            have h2 := migrate_message_migrations msg d tid1 w1
            rw [hmm2] at h2
            exact h2
          rw [show ((Except.error e : Except PyExn Unit), w2).2.migrations = w2.migrations from rfl] at hm
          rw [hw2] at hm
          rcases List.mem_append.mp hm with h | h
          · rcases hstep1 m' h with h2 | h2
            · exact Or.inl h2
            · exact Or.inr (Or.inr h2)
          · simp only [List.mem_singleton] at h
            subst h
            exact Or.inr (Or.inl hne)

lemma threadCreateStep_migrations (ot : OrigThread) (d : DestChan) (w : World) :
    ((threadCreateStep ot d w).2).migrations = w.migrations := by
  rw [threadCreateStep.eq_def]
  split
  · rfl
  · dsimp only
    split
    · split
      · rename_i sm w2 hsr
        have h2 := congrArg (fun p => p.2.migrations) hsr
        dsimp only at h2
        rw [webhookSendRaise_snd] at h2
        simp only [webhookSendAttempt_migrations, fetch_create_webhook_w_migrations] at h2
        exact h2.symm
      · rename_i e w2 hsr
        have h2 := congrArg (fun p => p.2.migrations) hsr
        dsimp only at h2
        rw [webhookSendRaise_snd] at h2
        simp only [webhookSendAttempt_migrations, fetch_create_webhook_w_migrations] at h2
        exact h2.symm
    · split
      · rename_i sm w2 hsr
        have h2 := congrArg (fun p => p.2.migrations) hsr
        dsimp only at h2
        rw [webhookSendRaise_snd] at h2
        simp only [webhookSendAttempt_migrations, fetch_create_webhook_w_migrations] at h2
        show (create_thread_from_message sm ot.name w2).2.migrations = w.migrations
        rw [create_thread_from_message_migrations]
        exact h2.symm
      · rename_i e w2 hsr
        have h2 := congrArg (fun p => p.2.migrations) hsr
        dsimp only at h2
        rw [webhookSendRaise_snd] at h2
        simp only [webhookSendAttempt_migrations, fetch_create_webhook_w_migrations] at h2
        exact h2.symm
    · exact fetch_create_webhook_w_migrations w

/-- C5 (amended): within a single thread migration, every message on which
`migrate_message` is invoked — i.e. every message `migrate_thread` sends to
the destination — is either non-empty or the thread's root message; empty
non-root messages are skipped.  (The original claim fails at channel level:
`migrate_channel`'s text case applies no emptiness filter and migrates
empty standalone messages — see `c5_counterexample`.) -/
theorem c5_thread_empty_skip (ot : OrigThread) (d : DestChan) (w : World) (m' : Msg)
    (hm : m' ∈ ((migrate_thread ot d w).2).migrations) :
    m' ∈ w.migrations ∨ is_empty_message m' = false ∨ rootOf ot = some m' := by
  rw [migrate_thread.eq_def] at hm
  split at hm
  · exact Or.inl hm
  · split at hm
    · exact Or.inl hm
    · rename_i history_list hfl
      split at hm
      · rename_i e w' hcs
        left
        have hw' : w'.migrations = w.migrations := by
          have h2 := congrArg (fun p => p.2.migrations) hcs
          dsimp only at h2
          rw [threadCreateStep_migrations] at h2
          exact h2.symm
        rw [← hw']
        exact hm
      · rename_i tid0 w' hcs
        have hw' : w'.migrations = w.migrations := by
          have h2 := congrArg (fun p => p.2.migrations) hcs
          dsimp only at h2
          rw [threadCreateStep_migrations] at h2
          exact h2.symm
        rcases migrateThreadLoop_migrations history_list.enum d ot (rootOf ot) tid0 w' m' hm
          with h | h | h
        · left
          rw [← hw']
          exact h
        · exact Or.inr (Or.inl h)
        · exact Or.inr (Or.inr h)

/-- An empty message (no body, embeds, poll, reactions, stickers). -/
def c5EmptyMsg : Msg := { sampleHiMsg with content := "", id := 4 }

/-- A text channel whose history is just the empty standalone message. -/
def c5Orig : OrigChan := .guildTextChan [.msg { msg := c5EmptyMsg, thread := none }]

/-- Counterexample for C5: `migrate_channel` (text case) has no emptiness
filter — the empty standalone message IS migrated and a send (whose content
is the bare prepended newline) IS issued for it, although it is not a
thread root. -/
theorem c5_counterexample :
    is_empty_message c5EmptyMsg = true
    ∧ ((migrate_channel c5Orig (DestChan.guildText 1) sampleWorld).2).sends.map
        (fun c => c.content) = ["\n"]
    ∧ c5EmptyMsg ∈ ((migrate_channel c5Orig (DestChan.guildText 1) sampleWorld).2).migrations :=
  ⟨rfl, by decide, by decide⟩

/-- Root and body message for the C5 witness thread. -/
def c5Root : Msg := { sampleHiMsg with content := "root", id := 5 }

def c5M1 : Msg := { sampleHiMsg with content := "one", id := 6 }

def c5Thread : OrigThread := .publicThread "t5" (some c5Root) [.msg c5M1]

/-- Witness for C5 (amended): a message migrated by `migrate_thread` is
non-empty (or the root). -/
theorem c5_witness :
    c5M1 ∈ ((migrate_thread c5Thread (DestChan.guildText 1) sampleWorld).2).migrations
    ∧ (c5M1 ∈ sampleWorld.migrations ∨ is_empty_message c5M1 = false
        ∨ rootOf c5Thread = some c5M1) :=
  ⟨by decide,
   c5_thread_empty_skip c5Thread (DestChan.guildText 1) sampleWorld c5M1 (by decide)⟩

/-- Message, thread and world for the C8 failing input. -/
def c8Msg : Msg := { sampleHiMsg with content := "x", id := 8, jump_url := "u8" }

def c8Thread : OrigThread := .publicThread "t8" none [.msg c8Msg]

def c8World : World :=
  { sampleWorld with
    outcomes := fun i => if i = 0 then .ok sampleSent else .httpErr (.intCode 50001) }

/-- C8: evaluation of the code at the failing input.  Migrating a text
channel owning one thread whose root was deleted: the placeholder send
succeeds, then the thread's message send fails with 50001 (a classified
remote-error outcome), `migrate_message` returns bare `None`
(`retNone`), and `migrate_thread`'s `ok, thread_id, _ = ...` unpacking
raises `TypeError` — which propagates uncaught through `migrate_thread`
and out of the top-level `migrate_channel`, contradicting the claim that
no exception escapes it. -/
theorem c8_typeerror_escapes_channel :
    (migrate_channel (.guildTextChan [.msg { msg := c8Msg, thread := some c8Thread }])
      (DestChan.guildText 1) c8World).1 = .error .typeError := rfl
